import Mathlib

/-!
Verification development for the Lumina Press manuscript-to-book pipeline.

The definitions below are a shallow embedding of the client orchestration code:
the data model from `types.ts`, the upload/planning/writing pipeline from
`App.tsx` (`handleFileUpload`, `processChapters`, `generateCover`), the planner
response handling from `services/geminiService.ts` (`generateBookStructure`),
and the upload component's two selection paths from `components/FileUpload.tsx`.
Outbound generative calls are opaque: each call's outcome is supplied as an
`Except String String` value (success payload or raised error message), and the
per-chapter results of the writing loop as a function from call index to
outcome.
-/

/-! ## Data model (`types.ts`) -/

inductive ChapterStatus where
  | pending
  | generating
  | completed
  | error
deriving DecidableEq, Repr

inductive LoadingState where
  | IDLE
  | PARSING
  | PLANNING
  | WRITING
  | GENERATING_COVER
  | ERROR
  | SUCCESS
deriving DecidableEq, Repr

inductive StepStatus where
  | pending
  | processing
  | completed
  | error
deriving DecidableEq, Repr

structure Chapter where
  id : String
  title : String
  description : Option String
  content : String
  status : ChapterStatus
  pageStart : Option Nat
deriving DecidableEq, Repr

instance : Inhabited Chapter :=
  ⟨{ id := "", title := "", description := none, content := "",
     status := ChapterStatus.pending, pageStart := none }⟩

structure BookMetadata where
  title : String
  author : String
  genre : Option String
  summary : String
  language : Option String
deriving DecidableEq, Repr

structure Book where
  metadata : BookMetadata
  chapters : List Chapter
  coverUrl : Option String
  rawText : Option String
deriving DecidableEq, Repr

structure ProcessingStep where
  label : String
  status : StepStatus
deriving DecidableEq, Repr

/-- The component state of `App.tsx` (its `useState`/`useRef` hooks). -/
structure AppState where
  loadingState : LoadingState
  steps : List ProcessingStep
  book : Option Book
  activeChapterId : Option String
  isGeneratingCover : Bool
  errorMsg : Option String
  abortRef : Bool
deriving DecidableEq, Repr

/-- Outcome of one outbound generative call: the returned string, or the
message of the raised error. -/
abbrev WriteResult := Except String String

/-! ## List update at an index

`updateAt f i l` embeds the pattern
`const updated = [...prev.list]; updated[i] = f(updated[i])`, and equally the
`list.map((x, idx) => idx === i ? f(x) : x)` form of `updateStepStatus`
(`App.tsx` lines 27-29); out-of-range indices leave the list unchanged. -/

def updateAt {α : Type} (f : α → α) : Nat → List α → List α
  | _, [] => []
  | 0, x :: xs => f x :: xs
  | n + 1, x :: xs => x :: updateAt f n xs

theorem updateAt_length {α : Type} (f : α → α) (n : Nat) (l : List α) :
    (updateAt f n l).length = l.length := by
  induction l generalizing n with
  | nil => cases n <;> rfl
  | cons x xs ih =>
    cases n with
    | zero => rfl
    | succ m => simp [updateAt, ih]

theorem getD_nil {α : Type} (n : Nat) (d : α) : ([] : List α).getD n d = d := by
  cases n <;> rfl

theorem getD_cons_zero {α : Type} (x : α) (xs : List α) (d : α) :
    (x :: xs).getD 0 d = x := rfl

theorem getD_cons_succ {α : Type} (x : α) (xs : List α) (n : Nat) (d : α) :
    (x :: xs).getD (n + 1) d = xs.getD n d := rfl

theorem getD_updateAt_self {α : Type} (f : α → α) (n : Nat) (l : List α) (d : α)
    (h : n < l.length) : (updateAt f n l).getD n d = f (l.getD n d) := by
  induction l generalizing n with
  | nil => simp at h
  | cons x xs ih =>
    cases n with
    | zero => rfl
    | succ m =>
      rw [updateAt, getD_cons_succ, getD_cons_succ]
      exact ih m (by simpa using h)

theorem getD_updateAt_ne {α : Type} (f : α → α) (n j : Nat) (l : List α) (d : α)
    (h : j ≠ n) : (updateAt f n l).getD j d = l.getD j d := by
  induction l generalizing n j with
  | nil => cases n <;> rfl
  | cons x xs ih =>
    cases n with
    | zero =>
      cases j with
      | zero => exact absurd rfl h
      | succ m => rfl
    | succ k =>
      cases j with
      | zero => rfl
      | succ m =>
        rw [updateAt, getD_cons_succ, getD_cons_succ]
        exact ih k m (fun hc => h (by rw [hc]))

/-! ## The chapter-writing loop (`App.tsx`, `processChapters`, lines 83-134) -/

/-- The fixed placeholder stored when a chapter write fails
(`App.tsx` line 126). -/
def errorPlaceholder : String := "Error generating content."

/-- `updated[i] = { ...updated[i], status: 'generating' }` (line 101). -/
def markGeneratingB (b : Book) (i : Nat) : Book :=
  { b with chapters :=
      updateAt (fun c => { c with status := ChapterStatus.generating }) i b.chapters }

/-- The per-chapter result write-back: success case line 117,
failure case line 126. -/
def resultUpdate (r : WriteResult) (c : Chapter) : Chapter :=
  match r with
  | Except.ok s => { c with status := ChapterStatus.completed, content := s }
  | Except.error _ => { c with status := ChapterStatus.error, content := errorPlaceholder }

def applyResultB (b : Book) (i : Nat) (r : WriteResult) : Book :=
  { b with chapters := updateAt (resultUpdate r) i b.chapters }

/-- `setBook(prev => { if (!prev) return null; ... status generating ... })`
(lines 98-103). -/
def setBookMarkGenerating (i : Nat) : Option Book → Option Book
  | none => none
  | some prev => some (markGeneratingB prev i)

/-- `setBook(prev => { if (!prev) return null; ... write result ... })`
(lines 114-119 / 123-128). -/
def setBookApplyResult (i : Nat) (r : WriteResult) : Option Book → Option Book
  | none => none
  | some prev => some (applyResultB prev i r)

/-- The body of the `for` loop (lines 94-130), iterated once per chapter of the
snapshot `chaptersToProcess`; `res i` is the outcome of the awaited
`generateChapterContent` call for chapter `i`. The fuel argument is the
snapshot length; updates land in the current book by index `i`. -/
def chapterLoop (res : Nat → WriteResult) (i : Nat) : Nat → Book → Book
  | 0, b => b
  | n + 1, b =>
      chapterLoop res (i + 1) n (applyResultB (markGeneratingB b i) i (res i))

/-- The same loop at the `Option Book` level, each `setBook` guarded by the
`if (!prev) return null` check. -/
def chapterLoopOpt (res : Nat → WriteResult) (i : Nat) : Nat → Option Book → Option Book
  | 0, ob => ob
  | n + 1, ob =>
      chapterLoopOpt res (i + 1) n (setBookApplyResult i (res i) (setBookMarkGenerating i ob))

/-- The sequence of book snapshots the loop publishes through `setBook`:
for each chapter, first the state with that chapter `generating`, then the
state with its write result applied. -/
def chapterLoopTrace (res : Nat → WriteResult) (i : Nat) : Nat → Book → List Book
  | 0, _ => []
  | n + 1, b =>
      markGeneratingB b i ::
      applyResultB (markGeneratingB b i) i (res i) ::
      chapterLoopTrace res (i + 1) n (applyResultB (markGeneratingB b i) i (res i))

/-- `setActiveChapterId(chaptersToProcess[0].id)` when non-empty
(lines 87-89). -/
def selectFirstChapter (curr : Book) (s : AppState) : AppState :=
  match curr.chapters with
  | [] => s
  | c :: _ => { s with activeChapterId := some c.id }

/-- State-level effect of `processChapters(currentBook, rawText)`
(lines 83-134): select the first chapter, run the writing loop over the
snapshot's chapters, then `setLoadingState(SUCCESS)` and mark step 3 completed.
The concurrently launched `generateCover` call (line 92) only ever touches
`coverUrl` and `isGeneratingCover`; it is modelled separately as
`generateCoverState`. The loop never reads `abortRef`. -/
def processChaptersState (curr : Book) (res : Nat → WriteResult) (s : AppState) : AppState :=
  let s1 := selectFirstChapter curr s
  let s2 := { s1 with book := chapterLoopOpt res 0 curr.chapters.length s1.book }
  { s2 with loadingState := LoadingState.SUCCESS,
            steps := updateAt (fun st => { st with status := StepStatus.completed }) 3 s2.steps }

/-! ## Cover generation (`App.tsx`, `generateCover`, lines 136-146) -/

/-- State-level effect of `generateCover(bookData)`: on success the cover URL is
written into the current book (if any); on failure only the error is logged;
in both cases the `finally` block leaves `isGeneratingCover` false. -/
def generateCoverState (coverRes : Except String String) (s : AppState) : AppState :=
  match coverRes with
  | Except.ok url =>
      { s with book := s.book.map (fun b => { b with coverUrl := some url }),
               isGeneratingCover := false }
  | Except.error _ => { s with isGeneratingCover := false }

/-! ## File upload component (`components/FileUpload.tsx`) -/

structure DomFile where
  name : String
  mimeType : String
deriving DecidableEq, Repr

def DOCX_MIME : String :=
  "application/vnd.openxmlformats-officedocument.wordprocessingml.document"

/-- `handleDrop` (lines 9-21): the dropped file is forwarded only when its MIME
type is the `.docx` type; otherwise an alert is shown and nothing is selected.
Returns the file passed to `onFileSelect`, if any. -/
def handleDrop (disabled : Bool) (files : List DomFile) : Option DomFile :=
  if disabled then none
  else
    match files with
    | [] => none
    | f :: _ => if f.mimeType = DOCX_MIME then some f else none

/-- `handleChange` (lines 23-28): the browsed file is forwarded unconditionally,
with no type check in code (the input's `accept` attribute is only a picker
hint). -/
def handleChange (disabled : Bool) (files : List DomFile) : Option DomFile :=
  if disabled then none
  else
    match files with
    | [] => none
    | f :: _ => some f

/-! ## Structure planner (`services/geminiService.ts`, `generateBookStructure`)

The parsed JSON payload, as the client sees it: both top-level fields may be
absent at runtime (the return type is `Partial<Book>`). -/

structure PlannedChapter where
  id : String
  title : String
  description : Option String
deriving DecidableEq, Repr

structure StructureResult where
  metadata : Option BookMetadata
  chapters : Option (List PlannedChapter)
deriving DecidableEq, Repr

/-- What the generative call yields back to `generateBookStructure`:
`response.text` absent, text present but not parsable JSON (with the parse
error's message), or a parsed payload. -/
inductive PlannerResponse where
  | noText
  | unparsable (msg : String)
  | parsed (s : StructureResult)
deriving DecidableEq, Repr

/-- `generateBookStructure` error handling (lines 78-80 of the service):
`if (!text) throw new Error("No response from AI"); return JSON.parse(text);`.
A parsed payload is returned as-is, with no field validation. -/
def generateBookStructure : PlannerResponse → Except String StructureResult
  | PlannerResponse.noText => Except.error "No response from AI"
  | PlannerResponse.unparsable msg => Except.error msg
  | PlannerResponse.parsed s => Except.ok s

/-! ## Upload pipeline (`App.tsx`, `handleFileUpload`, lines 31-80) -/

def INITIAL_STEPS : List ProcessingStep :=
  [{ label := "Reading manuscript", status := StepStatus.pending },
   { label := "Analyzing structure & removing duplicates", status := StepStatus.pending },
   { label := "Planning chapters (Table of Contents)", status := StepStatus.pending },
   { label := "Writing content chapter by chapter", status := StepStatus.pending }]

def setStepStatus (st : StepStatus) (i : Nat) (l : List ProcessingStep) : List ProcessingStep :=
  updateAt (fun step => { step with status := st }) i l

def defaultErrorMsg : String := "An unexpected error occurred processing your book."

/-- `err.message || "An unexpected error occurred processing your book."`. -/
def errMsgOf (e : String) : String := if e = "" then defaultErrorMsg else e

/-- The metadata default `structure.metadata || { title: 'Unknown', ... }`
(`App.tsx` line 58). -/
def unknownMetadata : BookMetadata :=
  { title := "Unknown", author := "Unknown", genre := none, summary := "",
    language := some "en" }

/-- The `catch` block of `handleFileUpload` (lines 74-79). -/
def failState (e : String) (s : AppState) : AppState :=
  { s with loadingState := LoadingState.ERROR,
           errorMsg := some (errMsgOf e),
           steps := setStepStatus StepStatus.error 0 s.steps }

/-- Chapter materialization (lines 50-55): each planned chapter becomes a
pending chapter with empty content and `pageStart = idx * 15 + 1`. -/
def materializeChapters (pcs : List PlannedChapter) : List Chapter :=
  pcs.enum.map (fun p =>
    { id := p.2.id, title := p.2.title, description := p.2.description,
      content := "", status := ChapterStatus.pending,
      pageStart := some (p.1 * 15 + 1) })

/-- Lines 32-36: reset the run state and mark step 0 processing. -/
def uploadStart (s : AppState) : AppState :=
  { s with
    loadingState := LoadingState.PARSING
    errorMsg := none
    book := none
    steps := setStepStatus StepStatus.processing 0 INITIAL_STEPS }

/-- Lines 41-46: step 0 completed, stage `PLANNING`, steps 1 and 2
processing. -/
def planningStart (s : AppState) : AppState :=
  { s with
    loadingState := LoadingState.PLANNING
    steps := setStepStatus StepStatus.processing 2
      (setStepStatus StepStatus.processing 1
        (setStepStatus StepStatus.completed 0 s.steps)) }

/-- Lines 50-61: materialize the Book from the planner result, with the
`structure.metadata || {...}` and `structure.chapters || []` defaults. -/
def materializeBook (raw : String) (st : StructureResult) : Book :=
  { metadata := st.metadata.getD unknownMetadata
    chapters := materializeChapters (st.chapters.getD [])
    coverUrl := none
    rawText := some raw }

/-- Lines 63-69: install the new book, mark steps 1 and 2 completed, stage
`WRITING`, step 3 processing. -/
def writingStart (nb : Book) (s : AppState) : AppState :=
  { s with
    book := some nb
    loadingState := LoadingState.WRITING
    steps := setStepStatus StepStatus.processing 3
      (setStepStatus StepStatus.completed 2
        (setStepStatus StepStatus.completed 1 s.steps)) }

/-- `handleFileUpload(file)` (lines 31-80). `ext` is the outcome of
`parseDocx(file)`, `pl` the generative response behind
`generateBookStructure(rawText, file.name)`, `res` the per-chapter write
outcomes consumed by the triggered `processChapters`. -/
def handleFileUpload (ext : Except String String) (pl : PlannerResponse)
    (res : Nat → WriteResult) (s : AppState) : AppState :=
  match ext with
  | Except.error e => failState e (uploadStart s)
  | Except.ok raw =>
    match generateBookStructure pl with
    | Except.error e => failState e (planningStart (uploadStart s))
    | Except.ok st =>
        processChaptersState (materializeBook raw st) res
          (writingStart (materializeBook raw st) (planningStart (uploadStart s)))

/-! ## Interleaving of a stale writing loop with a new upload

When a new upload replaces the book while a previous run's loop is still
awaiting a chapter, the pending `setBook(prev => ...)` callbacks of the old
loop fire against whatever book is current. Each event below is one such
`setBook` call, in the order the runtime executes them. -/

inductive BookEvent where
  /-- `setBook(null)` at the start of `handleFileUpload` (line 34). -/
  | clearBook
  /-- `setBook(newBook)` after planning succeeds (line 63). -/
  | installBook (b : Book)
  /-- a still-pending `generating` update from the previous run's loop
  (lines 98-103). -/
  | oldMarkGenerating (i : Nat)
  /-- a still-pending write-result update from the previous run's loop
  (lines 114-119 / 123-128). -/
  | oldApplyResult (i : Nat) (r : WriteResult)
deriving Repr

def applyBookEvent (ob : Option Book) : BookEvent → Option Book
  | BookEvent.clearBook => none
  | BookEvent.installBook b => some b
  | BookEvent.oldMarkGenerating i => setBookMarkGenerating i ob
  | BookEvent.oldApplyResult i r => setBookApplyResult i r ob

def runBookEvents (es : List BookEvent) (ob : Option Book) : Option Book :=
  es.foldl applyBookEvent ob

/-! ## Concrete fixtures used by the closed theorems below -/

def idleState : AppState :=
  { loadingState := LoadingState.IDLE, steps := INITIAL_STEPS, book := none,
    activeChapterId := none, isGeneratingCover := false, errorMsg := none,
    abortRef := false }

def mkPendingChapter (i t : String) : Chapter :=
  { id := i, title := t, description := some "brief", content := "",
    status := ChapterStatus.pending, pageStart := some 1 }

/-- Status of chapter `j` of a book (out-of-range reads give the default
pending chapter). -/
def chStatus (b : Book) (j : Nat) : ChapterStatus :=
  (b.chapters.getD j default).status

def chContent (b : Book) (j : Nat) : String :=
  (b.chapters.getD j default).content

/-- A status a chapter holds once its write call has settled. -/
def resolvedStatus (st : ChapterStatus) : Prop :=
  st = ChapterStatus.completed ∨ st = ChapterStatus.error

/-- The record a chapter must hold after its write call settled with
result `r`. -/
def ChapterDone (r : WriteResult) (c : Chapter) : Prop :=
  match r with
  | Except.ok s => c.status = ChapterStatus.completed ∧ c.content = s
  | Except.error _ => c.status = ChapterStatus.error ∧ c.content = errorPlaceholder

/-- Loop invariant: entering iteration `i`, every chapter below `i` has
settled and every chapter from `i` on is still pending. -/
def StInv (i : Nat) (b : Book) : Prop :=
  (∀ j, j < i → resolvedStatus (chStatus b j)) ∧
  (∀ j, i ≤ j → chStatus b j = ChapterStatus.pending)

/-- Shape of every published loop snapshot: a resolved block, then at most one
chapter at the cursor that is `generating` or still `pending`, then a pending
tail. -/
def SeqShape (b : Book) : Prop :=
  ∃ m, (∀ j, j < m → resolvedStatus (chStatus b j)) ∧
       (∀ j, m < j → chStatus b j = ChapterStatus.pending) ∧
       (chStatus b m = ChapterStatus.generating ∨ chStatus b m = ChapterStatus.pending)

/-- Allowed evolution of one chapter record between two consecutive published
snapshots: unchanged, `pending` to `generating`, or `generating` to a settled
status. -/
def chapterStepOK (c cNew : Chapter) : Prop :=
  cNew = c ∨
  (c.status = ChapterStatus.pending ∧ cNew.status = ChapterStatus.generating) ∨
  (c.status = ChapterStatus.generating ∧
    (cNew.status = ChapterStatus.completed ∨ cNew.status = ChapterStatus.error))

def BookStepOK (b bNew : Book) : Prop :=
  ∀ j : Nat, chapterStepOK (b.chapters.getD j default) (bNew.chapters.getD j default)

/-! Fixtures for the abort-signal claim: a one-chapter run with the abort flag
already set before the writing loop starts. -/

def c3Book : Book :=
  { metadata := unknownMetadata, chapters := [mkPendingChapter "c1" "One"],
    coverUrl := none, rawText := some "manuscript" }

def c3State : AppState :=
  { idleState with
    abortRef := true
    book := some c3Book
    loadingState := LoadingState.WRITING }

/-! Fixtures for the re-entrancy claim: an old run awaiting its chapter-0
write when a new upload replaces the book. -/

def oldBookC4 : Book :=
  { metadata := unknownMetadata,
    chapters := [{ id := "old-1", title := "Old Chapter",
                   description := some "old brief", content := "",
                   status := ChapterStatus.generating, pageStart := some 1 }],
    coverUrl := none, rawText := some "old manuscript" }

def newChapterC4 : Chapter := mkPendingChapter "new-1" "New Chapter"

def newBookC4 : Book :=
  { metadata := { title := "New Title", author := "A", genre := none,
                  summary := "", language := some "en" },
    chapters := [newChapterC4], coverUrl := none, rawText := some "new manuscript" }

/-! Fixture for the planner-validation claim: a parsed response missing every
required field (`JSON.parse("{}")`). -/

def emptyStructure : StructureResult := { metadata := none, chapters := none }

/-! Fixtures for the writing-loop claims. -/

def wBook2 : Book :=
  { metadata := unknownMetadata,
    chapters := [mkPendingChapter "c1" "One", mkPendingChapter "c2" "Two"],
    coverUrl := none, rawText := some "t" }

def wRes2 : Nat → WriteResult :=
  fun i => if i = 0 then Except.ok "alpha" else Except.error "boom"

def wBook3 : Book :=
  { metadata := unknownMetadata,
    chapters := [mkPendingChapter "c1" "One", mkPendingChapter "c2" "Two",
                 mkPendingChapter "c3" "Three"],
    coverUrl := none, rawText := some "t" }

def wRes3 : Nat → WriteResult :=
  fun i => if i = 1 then Except.error "boom" else Except.ok "prose"

def wState3 : AppState :=
  { idleState with
    book := some wBook3
    loadingState := LoadingState.WRITING }

def c6Book : Book :=
  { metadata := unknownMetadata, chapters := [mkPendingChapter "c1" "One"],
    coverUrl := none, rawText := some "t" }

/-! ## Helper lemmas about the writing loop -/

theorem mark_length (b : Book) (i : Nat) :
    (markGeneratingB b i).chapters.length = b.chapters.length :=
  updateAt_length _ _ _

theorem apply_length (b : Book) (i : Nat) (r : WriteResult) :
    (applyResultB b i r).chapters.length = b.chapters.length :=
  updateAt_length _ _ _

theorem mark_getD_self (b : Book) (i : Nat) (h : i < b.chapters.length) :
    (markGeneratingB b i).chapters.getD i default
      = { b.chapters.getD i default with status := ChapterStatus.generating } :=
  getD_updateAt_self _ _ _ _ h

theorem mark_getD_ne (b : Book) (i j : Nat) (h : j ≠ i) :
    (markGeneratingB b i).chapters.getD j default = b.chapters.getD j default :=
  getD_updateAt_ne _ _ _ _ _ h

theorem apply_getD_self (b : Book) (i : Nat) (r : WriteResult)
    (h : i < b.chapters.length) :
    (applyResultB b i r).chapters.getD i default
      = resultUpdate r (b.chapters.getD i default) :=
  getD_updateAt_self _ _ _ _ h

theorem apply_getD_ne (b : Book) (i j : Nat) (r : WriteResult) (h : j ≠ i) :
    (applyResultB b i r).chapters.getD j default = b.chapters.getD j default :=
  getD_updateAt_ne _ _ _ _ _ h

theorem chStatus_mark_self (b : Book) (i : Nat) (h : i < b.chapters.length) :
    chStatus (markGeneratingB b i) i = ChapterStatus.generating := by
  unfold chStatus; rw [mark_getD_self b i h]

theorem chStatus_mark_ne (b : Book) (i j : Nat) (h : j ≠ i) :
    chStatus (markGeneratingB b i) j = chStatus b j := by
  unfold chStatus; rw [mark_getD_ne b i j h]

theorem chStatus_apply_ne (b : Book) (i j : Nat) (r : WriteResult) (h : j ≠ i) :
    chStatus (applyResultB b i r) j = chStatus b j := by
  unfold chStatus; rw [apply_getD_ne b i j r h]

theorem resolved_resultUpdate (r : WriteResult) (c : Chapter) :
    resolvedStatus (resultUpdate r c).status := by
  cases r with
  | ok s => exact Or.inl rfl
  | error e => exact Or.inr rfl

theorem chStatus_apply_self (b : Book) (i : Nat) (r : WriteResult)
    (h : i < b.chapters.length) :
    resolvedStatus (chStatus (applyResultB b i r) i) := by
  unfold chStatus; rw [apply_getD_self b i r h]; exact resolved_resultUpdate r _

theorem ChapterDone_resultUpdate (r : WriteResult) (c : Chapter) :
    ChapterDone r (resultUpdate r c) := by
  cases r with
  | ok s => exact ⟨rfl, rfl⟩
  | error e => exact ⟨rfl, rfl⟩

theorem getD_status_pending : ∀ (l : List Chapter) (j : Nat),
    (∀ c ∈ l, c.status = ChapterStatus.pending) →
    (l.getD j default).status = ChapterStatus.pending
  | [], j, _ => by rw [getD_nil]; rfl
  | x :: _, 0, hp => hp x (List.mem_cons_self x _)
  | x :: xs, j + 1, hp => by
      rw [getD_cons_succ]
      exact getD_status_pending xs j (fun c hc => hp c (List.mem_cons_of_mem x hc))

theorem StInv_of_pending (b : Book)
    (hp : ∀ c ∈ b.chapters, c.status = ChapterStatus.pending) : StInv 0 b :=
  ⟨fun j hj => absurd hj (Nat.not_lt_zero j),
   fun j _ => getD_status_pending b.chapters j hp⟩

/-- One iteration carries the invariant from cursor `i` to cursor `i + 1`. -/
theorem StInv_step (b : Book) (i : Nat) (r : WriteResult)
    (hi : i < b.chapters.length) (hinv : StInv i b) :
    StInv (i + 1) (applyResultB (markGeneratingB b i) i r) := by
  obtain ⟨hres, hpend⟩ := hinv
  constructor
  · intro j hj
    by_cases hje : j = i
    · subst hje
      exact chStatus_apply_self (markGeneratingB b j) j r
        (by rw [mark_length]; exact hi)
    · have hj' : j < i := by omega
      rw [chStatus_apply_ne _ i j r hje, chStatus_mark_ne b i j hje]
      exact hres j hj'
  · intro j hj
    have hje : j ≠ i := by omega
    rw [chStatus_apply_ne _ i j r hje, chStatus_mark_ne b i j hje]
    exact hpend j (by omega)

theorem chapterLoop_length (res : Nat → WriteResult) :
    ∀ (n i : Nat) (b : Book),
      (chapterLoop res i n b).chapters.length = b.chapters.length := by
  intro n
  induction n with
  | zero => intro i b; rfl
  | succ m ih =>
    intro i b
    show (chapterLoop res (i + 1) m _).chapters.length = _
    rw [ih, apply_length, mark_length]

theorem chapterLoop_getD_lt (res : Nat → WriteResult) :
    ∀ (n i j : Nat) (b : Book), j < i →
      (chapterLoop res i n b).chapters.getD j default
        = b.chapters.getD j default := by
  intro n
  induction n with
  | zero => intro i j b _; rfl
  | succ m ih =>
    intro i j b hj
    show (chapterLoop res (i + 1) m _).chapters.getD j default = _
    rw [ih (i + 1) j _ (Nat.lt_succ_of_lt hj),
        apply_getD_ne _ i j _ (Nat.ne_of_lt hj), mark_getD_ne b i j (Nat.ne_of_lt hj)]

/-- Once the loop has run over a chapter, the final book holds exactly that
chapter's settled record. -/
theorem chapterLoop_done (res : Nat → WriteResult) :
    ∀ (n i j : Nat) (b : Book), j < n → i + n ≤ b.chapters.length →
      ChapterDone (res (i + j))
        ((chapterLoop res i n b).chapters.getD (i + j) default) := by
  intro n
  induction n with
  | zero => intro i j b hj _; exact absurd hj (Nat.not_lt_zero j)
  | succ m ih =>
    intro i j b hj hlen
    have hi : i < b.chapters.length := by omega
    cases j with
    | zero =>
      rw [Nat.add_zero]
      show ChapterDone (res i)
        ((chapterLoop res (i + 1) m
          (applyResultB (markGeneratingB b i) i (res i))).chapters.getD i default)
      rw [chapterLoop_getD_lt res m (i + 1) i _ (Nat.lt_succ_self i),
          apply_getD_self _ i (res i) (by rw [mark_length]; exact hi)]
      exact ChapterDone_resultUpdate (res i) _
    | succ k =>
      have harith : i + (k + 1) = (i + 1) + k := by omega
      rw [harith]
      show ChapterDone (res ((i + 1) + k))
        ((chapterLoop res (i + 1) m
          (applyResultB (markGeneratingB b i) i (res i))).chapters.getD ((i + 1) + k) default)
      exact ih (i + 1) k _ (by omega) (by rw [apply_length, mark_length]; omega)

/-- Every snapshot the loop publishes has the sequential shape. -/
theorem chapterLoopTrace_shape (res : Nat → WriteResult) :
    ∀ (n i : Nat) (b : Book), i + n ≤ b.chapters.length → StInv i b →
      ∀ t ∈ chapterLoopTrace res i n b, SeqShape t := by
  intro n
  induction n with
  | zero =>
    intro i b _ _ t ht
    simp [chapterLoopTrace] at ht
  | succ m ih =>
    intro i b hlen hinv t ht
    have hi : i < b.chapters.length := by omega
    obtain ⟨hres, hpend⟩ := hinv
    simp only [chapterLoopTrace, List.mem_cons] at ht
    rcases ht with rfl | rfl | ht
    · exact ⟨i,
        fun j hj => by rw [chStatus_mark_ne b i j (Nat.ne_of_lt hj)]; exact hres j hj,
        fun j hj => by rw [chStatus_mark_ne b i j (Nat.ne_of_gt hj)]; exact hpend j (by omega),
        Or.inl (chStatus_mark_self b i hi)⟩
    · have hinv2 := StInv_step b i (res i) hi ⟨hres, hpend⟩
      exact ⟨i + 1, fun j hj => hinv2.1 j hj,
        fun j hj => hinv2.2 j (by omega),
        Or.inr (hinv2.2 (i + 1) (Nat.le_refl _))⟩
    · exact ih (i + 1) _ (by rw [apply_length, mark_length]; omega)
        (StInv_step b i (res i) hi ⟨hres, hpend⟩) t ht

/-- Consecutive published snapshots differ by at most one legal chapter
transition. -/
theorem chapterLoopTrace_chain (res : Nat → WriteResult) :
    ∀ (n i : Nat) (b : Book), i + n ≤ b.chapters.length → StInv i b →
      List.Chain BookStepOK b (chapterLoopTrace res i n b) := by
  intro n
  induction n with
  | zero => intro i b _ _; exact List.Chain.nil
  | succ m ih =>
    intro i b hlen hinv
    have hi : i < b.chapters.length := by omega
    obtain ⟨hres, hpend⟩ := hinv
    have h1 : BookStepOK b (markGeneratingB b i) := by
      intro j
      by_cases hje : j = i
      · subst hje
        refine Or.inr (Or.inl ⟨hpend j (Nat.le_refl j), ?_⟩)
        rw [mark_getD_self b j hi]
      · exact Or.inl (mark_getD_ne b i j hje)
    have h2 : BookStepOK (markGeneratingB b i)
        (applyResultB (markGeneratingB b i) i (res i)) := by
      intro j
      by_cases hje : j = i
      · subst hje
        refine Or.inr (Or.inr ⟨?_, ?_⟩)
        · rw [mark_getD_self b j hi]
        · have hj' : j < (markGeneratingB b j).chapters.length := by
            rw [mark_length]; exact hi
          rw [apply_getD_self _ j (res j) hj']
          cases res j with
          | ok s => exact Or.inl rfl
          | error e => exact Or.inr rfl
      · exact Or.inl (apply_getD_ne _ i j _ hje)
    exact List.Chain.cons h1 (List.Chain.cons h2
      (ih (i + 1) _ (by rw [apply_length, mark_length]; omega)
        (StInv_step b i (res i) hi ⟨hres, hpend⟩)))

/-- The `Option`-level loop agrees with the book-level loop on a present
book. -/
theorem chapterLoopOpt_some (res : Nat → WriteResult) :
    ∀ (n i : Nat) (b : Book),
      chapterLoopOpt res i n (some b) = some (chapterLoop res i n b) := by
  intro n
  induction n with
  | zero => intro i b; rfl
  | succ m ih => intro i b; exact ih (i + 1) _

theorem selectFirstChapter_book (curr : Book) (s : AppState) :
    (selectFirstChapter curr s).book = s.book := by
  unfold selectFirstChapter; cases curr.chapters <;> rfl

theorem processChaptersState_book (curr : Book) (res : Nat → WriteResult)
    (s : AppState) (b : Book) (hb : s.book = some b) :
    (processChaptersState curr res s).book
      = some (chapterLoop res 0 curr.chapters.length b) := by
  show chapterLoopOpt res 0 curr.chapters.length (selectFirstChapter curr s).book = _
  rw [selectFirstChapter_book, hb, chapterLoopOpt_some]

/-- Position `2 * j` of the published trace is the snapshot in which chapter
`i + j` has just been marked `generating`: chapters are attempted one after the
other, in index order. -/
theorem chapterLoopTrace_generating (res : Nat → WriteResult) :
    ∀ (n i j : Nat) (b : Book), j < n → i + n ≤ b.chapters.length →
      ∃ t, (chapterLoopTrace res i n b).get? (2 * j) = some t ∧
        chStatus t (i + j) = ChapterStatus.generating := by
  intro n
  induction n with
  | zero => intro i j b hj _; exact absurd hj (Nat.not_lt_zero j)
  | succ m ih =>
    intro i j b hj hlen
    have hi : i < b.chapters.length := by omega
    cases j with
    | zero =>
      refine ⟨markGeneratingB b i, rfl, ?_⟩
      rw [Nat.add_zero]
      exact chStatus_mark_self b i hi
    | succ k =>
      obtain ⟨t, hget, hst⟩ := ih (i + 1) k
        (applyResultB (markGeneratingB b i) i (res i)) (by omega)
        (by rw [apply_length, mark_length]; omega)
      refine ⟨t, ?_, ?_⟩
      · have harith : 2 * (k + 1) = 2 * k + 1 + 1 := by omega
        rw [harith]
        exact hget
      · have harith2 : i + (k + 1) = (i + 1) + k := by omega
        rw [harith2]
        exact hst

/-! ## Theorems -/

/-- **C8** — If cover generation fails, the run stage is untouched (the cover
task never writes the loading state), the steps are untouched, the whole book
— in particular `coverUrl` — keeps its prior value, and only
`isGeneratingCover` is reset; on any outcome the stage is unchanged. -/
theorem cover_failure_frame (e : String) (r : Except String String) (s : AppState) :
    (generateCoverState (Except.error e) s).loadingState = s.loadingState ∧
    (generateCoverState (Except.error e) s).steps = s.steps ∧
    (generateCoverState (Except.error e) s).book = s.book ∧
    (generateCoverState (Except.error e) s).errorMsg = s.errorMsg ∧
    (generateCoverState (Except.error e) s).isGeneratingCover = false ∧
    (generateCoverState r s).loadingState = s.loadingState ∧
    (generateCoverState r s).steps = s.steps := by
  refine ⟨rfl, rfl, rfl, rfl, rfl, ?_, ?_⟩ <;> cases r <;> rfl

/-- **C10** — Only the drag-and-drop path validates the MIME type: a dropped
file is selected exactly when its type is the `.docx` type, while a file chosen
through the browse input is always selected, whatever its type. -/
theorem browse_path_skips_validation (f : DomFile) (rest : List DomFile) :
    (handleDrop false (f :: rest) = some f ↔ f.mimeType = DOCX_MIME) ∧
    handleChange false (f :: rest) = some f := by
  constructor
  · by_cases h : f.mimeType = DOCX_MIME <;> simp [handleDrop, h]
  · rfl

/-- **C3** — Failing-input evaluation: the writing loop never reads
`abortRef`. With the abort flag set before chapter 0 starts, chapter 0 is
nevertheless marked `generating`, then `completed`, and the run reaches
`SUCCESS`; the claim says chapter 0 should have stayed `pending` and the loop
should have stopped advancing. -/
theorem abort_signal_ignored :
    c3State.abortRef = true ∧
    (processChaptersState c3Book (fun _ => Except.ok "generated prose") c3State).book.map
        (fun b => chStatus b 0) = some ChapterStatus.completed ∧
    (processChaptersState c3Book (fun _ => Except.ok "generated prose")
        c3State).loadingState = LoadingState.SUCCESS := by
  exact ⟨rfl, rfl, rfl⟩

/-- **C4** — Failing-input evaluation: the previous run's pending
`setBook(prev => ...)` write-back fires after the new upload installed its
fresh book, and lands in the new run's Book: the new run's chapter record
`new-1` (still pending, empty content) is overwritten to `completed` with the
old run's prose. The claim says no update of the previous run's loop is ever
applied to the new run's Book. -/
theorem stale_update_applied_to_new_book :
    runBookEvents
      [BookEvent.clearBook, BookEvent.installBook newBookC4,
       BookEvent.oldApplyResult 0 (Except.ok "old run prose")]
      (some oldBookC4)
    = some { newBookC4 with
        chapters := [{ newChapterC4 with
          status := ChapterStatus.completed, content := "old run prose" }] } := rfl

/-- **C5 counterexample** — A parsed planner response missing all required
fields (no `metadata`, no `chapters`) is not rejected: `generateBookStructure`
returns it as a success, and the pipeline accepts it with substituted defaults
(`Unknown` metadata, empty chapter list), finishing in `SUCCESS` with no
error — contradicting the claim that such a response fails with
`PlanningFailed`. -/
theorem planner_accepts_missing_fields :
    generateBookStructure (PlannerResponse.parsed emptyStructure)
      = Except.ok emptyStructure ∧
    (handleFileUpload (Except.ok "raw manuscript")
        (PlannerResponse.parsed emptyStructure) (fun _ => Except.ok "") idleState).loadingState
      = LoadingState.SUCCESS ∧
    (handleFileUpload (Except.ok "raw manuscript")
        (PlannerResponse.parsed emptyStructure) (fun _ => Except.ok "") idleState).book
      = some { metadata := unknownMetadata, chapters := [], coverUrl := none,
               rawText := some "raw manuscript" } ∧
    (handleFileUpload (Except.ok "raw manuscript")
        (PlannerResponse.parsed emptyStructure) (fun _ => Except.ok "") idleState).errorMsg
      = none := by
  exact ⟨rfl, rfl, rfl, rfl⟩

/-- **C5 (amended)** — The planner rejects only a missing response text or an
unparsable one; every parsed payload is accepted as-is with no field
validation, and the pipeline substitutes defaults for missing parts: a missing
`metadata` object becomes `{ title: 'Unknown', author: 'Unknown', summary: '',
language: 'en' }` and a missing `chapters` array becomes the empty list. -/
theorem planner_no_field_validation :
    (∀ s : StructureResult,
      generateBookStructure (PlannerResponse.parsed s) = Except.ok s) ∧
    generateBookStructure PlannerResponse.noText
      = Except.error "No response from AI" ∧
    (∀ m : String,
      generateBookStructure (PlannerResponse.unparsable m) = Except.error m) ∧
    (∀ (raw : String) (res : Nat → WriteResult) (s0 : AppState),
      (handleFileUpload (Except.ok raw)
          (PlannerResponse.parsed { metadata := none, chapters := none })
          res s0).book
        = some { metadata := unknownMetadata, chapters := [], coverUrl := none,
                 rawText := some raw }) := by
  exact ⟨fun s => rfl, rfl, fun m => rfl, fun raw res s0 => rfl⟩


/-- **C1** — For a run over `n` planned chapters in which the write call for
chapter `k` fails, the run still reaches `SUCCESS`; every chapter of the final
book holds its own settled record (chapter `k` with status `error` and the
fixed placeholder, the others per their own outcomes); and every chapter,
including those after `k`, is attempted in order: position `2 * j` of the
published trace shows chapter `j` `generating`. -/
theorem chapter_failure_resilience (curr : Book) (res : Nat → WriteResult)
    (s : AppState) (k : Nat) (e : String)
    (hb : s.book = some curr)
    (hk : k < curr.chapters.length)
    (he : res k = Except.error e) :
    (processChaptersState curr res s).loadingState = LoadingState.SUCCESS ∧
    (processChaptersState curr res s).book
      = some (chapterLoop res 0 curr.chapters.length curr) ∧
    (∀ j, j < curr.chapters.length →
      ChapterDone (res j)
        ((chapterLoop res 0 curr.chapters.length curr).chapters.getD j default)) ∧
    chStatus (chapterLoop res 0 curr.chapters.length curr) k = ChapterStatus.error ∧
    chContent (chapterLoop res 0 curr.chapters.length curr) k = errorPlaceholder ∧
    (∀ j, j < curr.chapters.length →
      ∃ t, (chapterLoopTrace res 0 curr.chapters.length curr).get? (2 * j) = some t ∧
        chStatus t j = ChapterStatus.generating) := by
  have hdone : ∀ j, j < curr.chapters.length →
      ChapterDone (res j)
        ((chapterLoop res 0 curr.chapters.length curr).chapters.getD j default) := by
    intro j hj
    have h := chapterLoop_done res curr.chapters.length 0 j curr hj (by omega)
    rwa [Nat.zero_add] at h
  have hkdone := hdone k hk
  rw [he] at hkdone
  obtain ⟨hks, hkc⟩ := hkdone
  refine ⟨rfl, processChaptersState_book curr res s curr hb, hdone, hks, hkc, ?_⟩
  intro j hj
  have h := chapterLoopTrace_generating res curr.chapters.length 0 j curr hj (by omega)
  rwa [Nat.zero_add] at h

/-- Witness for C1: the spec's three-chapter scenario, chapter 1 failing. -/
theorem chapter_failure_resilience_witness :
    (processChaptersState wBook3 wRes3 wState3).loadingState = LoadingState.SUCCESS ∧
    (processChaptersState wBook3 wRes3 wState3).book
      = some (chapterLoop wRes3 0 wBook3.chapters.length wBook3) ∧
    (∀ j, j < wBook3.chapters.length →
      ChapterDone (wRes3 j)
        ((chapterLoop wRes3 0 wBook3.chapters.length wBook3).chapters.getD j default)) ∧
    chStatus (chapterLoop wRes3 0 wBook3.chapters.length wBook3) 1 = ChapterStatus.error ∧
    chContent (chapterLoop wRes3 0 wBook3.chapters.length wBook3) 1 = errorPlaceholder ∧
    (∀ j, j < wBook3.chapters.length →
      ∃ t, (chapterLoopTrace wRes3 0 wBook3.chapters.length wBook3).get? (2 * j) = some t ∧
        chStatus t j = ChapterStatus.generating) :=
  chapter_failure_resilience wBook3 wRes3 wState3 1 "boom" rfl (by decide) rfl

/-- **C2** — In every snapshot the writing loop publishes, no two chapters are
`generating` at the same time, and a chapter `j > 0` is `generating` only once
chapter `j - 1` has left `generating` (settled to `completed` or `error`). -/
theorem chapter_writing_sequential (res : Nat → WriteResult) (b0 : Book)
    (hp : ∀ c ∈ b0.chapters, c.status = ChapterStatus.pending) :
    ∀ t ∈ chapterLoopTrace res 0 b0.chapters.length b0,
      (∀ j k, chStatus t j = ChapterStatus.generating →
        chStatus t k = ChapterStatus.generating → j = k) ∧
      (∀ j, 0 < j → chStatus t j = ChapterStatus.generating →
        resolvedStatus (chStatus t (j - 1))) := by
  intro t ht
  obtain ⟨m, hlt, hgt, _⟩ :=
    chapterLoopTrace_shape res b0.chapters.length 0 b0 (by omega)
      (StInv_of_pending b0 hp) t ht
  have honly : ∀ j, chStatus t j = ChapterStatus.generating → j = m := by
    intro j hj
    rcases Nat.lt_trichotomy j m with h | h | h
    · rcases hlt j h with hc | hc <;> rw [hj] at hc <;> exact ChapterStatus.noConfusion hc
    · exact h
    · have hc := hgt j h
      rw [hj] at hc
      exact ChapterStatus.noConfusion hc
  constructor
  · intro j k hj hk
    rw [honly j hj, honly k hk]
  · intro j hjpos hj
    have hjm := honly j hj
    subst hjm
    exact hlt (j - 1) (by omega)

/-- Witness for C2: a two-chapter run, second write failing, evaluated at the
first published snapshot. -/
theorem chapter_writing_sequential_witness :
    (∀ j k, chStatus (markGeneratingB wBook2 0) j = ChapterStatus.generating →
      chStatus (markGeneratingB wBook2 0) k = ChapterStatus.generating → j = k) ∧
    (∀ j, 0 < j → chStatus (markGeneratingB wBook2 0) j = ChapterStatus.generating →
      resolvedStatus (chStatus (markGeneratingB wBook2 0) (j - 1))) :=
  chapter_writing_sequential wRes2 wBook2 (by decide)
    (markGeneratingB wBook2 0) (by decide)

/-- **C6 counterexample** — After a failed write, the chapter's content is the
fixed placeholder, which is non-empty, while its status is `error`, not
`completed`: "content is non-empty if and only if status is completed" fails
at this concrete run. -/
theorem error_chapter_content_nonempty :
    chContent (chapterLoop (fun _ => Except.error "transport error") 0
      c6Book.chapters.length c6Book) 0 ≠ "" ∧
    chStatus (chapterLoop (fun _ => Except.error "transport error") 0
      c6Book.chapters.length c6Book) 0 ≠ ChapterStatus.completed ∧
    chStatus (chapterLoop (fun _ => Except.error "transport error") 0
      c6Book.chapters.length c6Book) 0 = ChapterStatus.error :=
  ⟨by decide, by decide, rfl⟩

/-- **C6 (amended)** — Every chapter's status only ever moves along
pending → generating → (completed | error) and never regresses (consecutive
published snapshots differ by at most one such legal transition), and in the
final book a chapter whose write succeeded is `completed` holding exactly the
writer's returned string (possibly empty), while a chapter whose write failed
is `error` holding the fixed placeholder. -/
theorem chapter_lifecycle_invariant (res : Nat → WriteResult) (b0 : Book)
    (hp : ∀ c ∈ b0.chapters, c.status = ChapterStatus.pending) :
    List.Chain BookStepOK b0 (chapterLoopTrace res 0 b0.chapters.length b0) ∧
    (∀ j, j < b0.chapters.length →
      ChapterDone (res j)
        ((chapterLoop res 0 b0.chapters.length b0).chapters.getD j default)) := by
  constructor
  · exact chapterLoopTrace_chain res b0.chapters.length 0 b0 (by omega)
      (StInv_of_pending b0 hp)
  · intro j hj
    have h := chapterLoop_done res b0.chapters.length 0 j b0 hj (by omega)
    rwa [Nat.zero_add] at h

/-- Witness for C6 (amended): the two-chapter run with a failing second
write. -/
theorem chapter_lifecycle_invariant_witness :
    List.Chain BookStepOK wBook2 (chapterLoopTrace wRes2 0 wBook2.chapters.length wBook2) ∧
    (∀ j, j < wBook2.chapters.length →
      ChapterDone (wRes2 j)
        ((chapterLoop wRes2 0 wBook2.chapters.length wBook2).chapters.getD j default)) :=
  chapter_lifecycle_invariant wRes2 wBook2 (by decide)

/-- **C7** — If extraction or planning fails, the run ends in `ERROR`, the
Book stays `null`, the raised cause (or the fixed fallback for an empty
message) is surfaced in `errorMsg`, and no chapter writing starts: the
resulting state does not depend on the chapter-write outcomes at all. -/
theorem fatal_failure_isolation (ext : Except String String) (pl : PlannerResponse)
    (res : Nat → WriteResult) (s : AppState)
    (hfail : (∃ e, ext = Except.error e) ∨
      (∃ e, generateBookStructure pl = Except.error e)) :
    (handleFileUpload ext pl res s).loadingState = LoadingState.ERROR ∧
    (handleFileUpload ext pl res s).book = none ∧
    (∀ e, ext = Except.error e →
      (handleFileUpload ext pl res s).errorMsg = some (errMsgOf e)) ∧
    (∀ e r0, ext = Except.ok r0 → generateBookStructure pl = Except.error e →
      (handleFileUpload ext pl res s).errorMsg = some (errMsgOf e)) ∧
    (∀ res2, handleFileUpload ext pl res2 s = handleFileUpload ext pl res s) := by
  cases ext with
  | error e =>
    refine ⟨rfl, rfl, ?_, ?_, ?_⟩
    · intro e2 he2
      injection he2 with he2
      subst he2
      rfl
    · intro e2 r0 hr0
      exact absurd hr0 (fun h => Except.noConfusion h)
    · intro res2
      rfl
  | ok raw =>
    rcases hfail with ⟨e, he⟩ | ⟨e, hpl⟩
    · exact absurd he (fun h => Except.noConfusion h)
    · cases pl with
      | noText =>
        refine ⟨rfl, rfl, ?_, ?_, ?_⟩
        · intro e2 he2
          exact absurd he2 (fun h => Except.noConfusion h)
        · intro e2 r0 _ hpl2
          injection hpl2 with hpl2
          subst hpl2
          rfl
        · intro res2
          rfl
      | unparsable m =>
        refine ⟨rfl, rfl, ?_, ?_, ?_⟩
        · intro e2 he2
          exact absurd he2 (fun h => Except.noConfusion h)
        · intro e2 r0 _ hpl2
          injection hpl2 with hpl2
          subst hpl2
          rfl
        · intro res2
          rfl
      | parsed st =>
        exact absurd hpl (fun h => Except.noConfusion h)

/-- Witness for C7: an extraction failure with the error the document parser
raises when its library is unavailable. -/
theorem fatal_failure_isolation_witness :
    (handleFileUpload (Except.error "Mammoth.js library not loaded")
        PlannerResponse.noText (fun _ => Except.ok "") idleState).loadingState
      = LoadingState.ERROR ∧
    (handleFileUpload (Except.error "Mammoth.js library not loaded")
        PlannerResponse.noText (fun _ => Except.ok "") idleState).book = none ∧
    (∀ e : String,
      (Except.error "Mammoth.js library not loaded" : Except String String)
        = Except.error e →
      (handleFileUpload (Except.error "Mammoth.js library not loaded")
          PlannerResponse.noText (fun _ => Except.ok "") idleState).errorMsg
        = some (errMsgOf e)) ∧
    (∀ e r0 : String,
      (Except.error "Mammoth.js library not loaded" : Except String String)
        = Except.ok r0 →
      generateBookStructure PlannerResponse.noText = Except.error e →
      (handleFileUpload (Except.error "Mammoth.js library not loaded")
          PlannerResponse.noText (fun _ => Except.ok "") idleState).errorMsg
        = some (errMsgOf e)) ∧
    (∀ res2, handleFileUpload (Except.error "Mammoth.js library not loaded")
        PlannerResponse.noText res2 idleState
      = handleFileUpload (Except.error "Mammoth.js library not loaded")
          PlannerResponse.noText (fun _ => Except.ok "") idleState) :=
  fatal_failure_isolation (Except.error "Mammoth.js library not loaded")
    PlannerResponse.noText (fun _ => Except.ok "") idleState
    (Or.inl ⟨"Mammoth.js library not loaded", rfl⟩)

/-- **C9** — The catch handler always marks step 0 ("Reading manuscript") as
`error`, whichever stage failed; on a planning failure, steps 1 and 2 are left
`processing` and no planning step is marked `error`. -/
theorem failure_marks_first_step (pl : PlannerResponse) (res : Nat → WriteResult)
    (s : AppState) :
    (∀ e, (handleFileUpload (Except.error e) pl res s).steps =
      [{ label := "Reading manuscript", status := StepStatus.error },
       { label := "Analyzing structure & removing duplicates", status := StepStatus.pending },
       { label := "Planning chapters (Table of Contents)", status := StepStatus.pending },
       { label := "Writing content chapter by chapter", status := StepStatus.pending }]) ∧
    (∀ raw e, generateBookStructure pl = Except.error e →
      (handleFileUpload (Except.ok raw) pl res s).steps =
      [{ label := "Reading manuscript", status := StepStatus.error },
       { label := "Analyzing structure & removing duplicates", status := StepStatus.processing },
       { label := "Planning chapters (Table of Contents)", status := StepStatus.processing },
       { label := "Writing content chapter by chapter", status := StepStatus.pending }]) := by
  constructor
  · intro e
    rfl
  · intro raw e hpl
    cases pl with
    | noText => rfl
    | unparsable m => rfl
    | parsed st => exact absurd hpl (fun h => Except.noConfusion h)

/-- Witness for C9: a planning failure (empty generative response). -/
theorem failure_marks_first_step_witness :
    (handleFileUpload (Except.ok "raw") PlannerResponse.noText
        (fun _ => Except.ok "") idleState).steps =
      [{ label := "Reading manuscript", status := StepStatus.error },
       { label := "Analyzing structure & removing duplicates", status := StepStatus.processing },
       { label := "Planning chapters (Table of Contents)", status := StepStatus.processing },
       { label := "Writing content chapter by chapter", status := StepStatus.pending }] :=
  (failure_marks_first_step PlannerResponse.noText (fun _ => Except.ok "")
    idleState).2 "raw" "No response from AI" rfl
